import Mathlib

/-
Verification of the Inpixon customisation layer of plotly.js:
titles (src/components/titles/index.js) and legend styling
(the unnamed legend style module).

Pixel coordinates are embedded as rationals; JavaScript objects become
Lean structures, absent / undefined values become Option, and the
JavaScript short-circuit idioms (x || dflt, strict === comparisons,
truthiness) are modelled explicitly.
-/

namespace PlotlyInpixon

/-! ## Basic geometry: sides and bounding boxes -/

/-- A side of a rectangle, as used by avoid.side and OPPOSITE_SIDE. -/
inductive Side
  | left
  | top
  | right
  | bottom
deriving DecidableEq

/-- OPPOSITE_SIDE from constants/alignment. -/
def Side.opposite : Side → Side
  | .left => .right
  | .right => .left
  | .top => .bottom
  | .bottom => .top

/-- A DOM bounding box as returned by Drawing.bBox:
left/top/right/bottom edges plus width and height. -/
structure BBox where
  left : ℚ
  top : ℚ
  right : ℚ
  bottom : ℚ
  width : ℚ
  height : ℚ
deriving DecidableEq

/-- Indexing a bounding box by a side name, as in titlebb[avoid.side]. -/
def BBox.edge (b : BBox) : Side → ℚ
  | .left => b.left
  | .top => b.top
  | .right => b.right
  | .bottom => b.bottom

/-- shiftSign in scootTitle: -1 for left or top, +1 otherwise. -/
def shiftSign : Side → ℚ
  | .left => -1
  | .top => -1
  | .right => 1
  | .bottom => 1

/-- The paper bounding box edge on a given side:
paperbb is left 0, top 0, right fullLayout.width, bottom fullLayout.height. -/
def paperEdge (fullW fullH : ℚ) : Side → ℚ
  | .left => 0
  | .top => 0
  | .right => fullW
  | .bottom => fullH

/-- Modelled from the spec: Lib.bBoxIntersect (lib/geometry2d.js) is not under
src; the spec describes avoided elements whose bounding box intersects the
title's bounding box within pad, i.e. the two boxes overlap once expanded
by pad on each axis. -/
def bBoxIntersect (a b : BBox) (pad : ℚ) : Bool :=
  decide (a.left ≤ b.right + pad ∧ b.left ≤ a.right + pad ∧
          a.top ≤ b.bottom + pad ∧ b.top ≤ a.bottom + pad)

/-! ## Avoid options and the generic scootTitle -/

/-- The avoid option of draw: options.avoid.
selection none models an absent / falsy d3 selection, side none an absent
side string, pad none a non-numeric avoid.pad, maxShift none an absent
avoid.maxShift (the JavaScript || also discards an explicit 0). -/
structure AvoidOpts where
  selection : Option (List BBox)
  side : Option Side
  offsetLeft : ℚ
  offsetTop : ℚ
  pad : Option ℚ
  maxShift : Option ℚ
deriving DecidableEq

/-- JavaScript x || dflt on numbers: 0 and absent both fall through. -/
def jsOrQ (v : Option ℚ) (dflt : ℚ) : ℚ :=
  match v with
  | none => dflt
  | some x => if x = 0 then dflt else x

/-- pad = isNumeric(avoid.pad) ? avoid.pad : 2. -/
def avoidPad (av : AvoidOpts) : ℚ := av.pad.getD 2

/-- The title bounding box after subtracting avoid.offsetLeft/offsetTop. -/
def adjustedTitlebb (titlebb : BBox) (av : AvoidOpts) : BBox :=
  { titlebb with
    left := titlebb.left - av.offsetLeft
    right := titlebb.right - av.offsetLeft
    top := titlebb.top - av.offsetTop
    bottom := titlebb.bottom - av.offsetTop }

/-- The per-element shift candidate inside the avoid.selection.each loop:
shiftSign * (avoidbb[avoid.side] - titlebb[backside]) + pad. -/
def scootContrib (side : Side) (pad : ℚ) (tbb avoidbb : BBox) : ℚ :=
  shiftSign side * (avoidbb.edge side - tbb.edge side.opposite) + pad

/-- maxshift = avoid.maxShift || shiftSign * (paperbb[avoid.side] - titlebb[avoid.side]). -/
def scootMaxshift (fullW fullH : ℚ) (titlebb : BBox) (av : AvoidOpts) (side : Side) : ℚ :=
  jsOrQ av.maxShift (shiftSign side * (paperEdge fullW fullH side - titlebb.edge side))

/-- The shift computed by scootTitle: maxshift itself when maxshift < 0,
otherwise the running maximum (starting at 0) of the contributions of the
avoided elements that intersect the offset-adjusted title box, capped at
maxshift. -/
def scootShiftFrom (fullW fullH : ℚ) (titlebb : BBox) (av : AvoidOpts)
    (els : List BBox) (side : Side) : ℚ :=
  let ms := scootMaxshift fullW fullH titlebb av side
  if ms < 0 then ms
  else
    let tbb := adjustedTitlebb titlebb av
    let pad := avoidPad av
    min ms
      (els.foldl
        (fun s bb =>
          if bBoxIntersect tbb bb pad then max s (scootContrib side pad tbb bb) else s)
        0)

/-- The translate pair taken from the shiftTemplate lookup keyed by avoid.side. -/
def shiftTemplate (side : Side) (shift : ℚ) : ℚ × ℚ :=
  match side with
  | .left => (-shift, 0)
  | .right => (shift, 0)
  | .top => (0, -shift)
  | .bottom => (0, shift)

/-- Final state of the transform attribute of a title group. -/
inductive TransformAttr
  | untouched
  | cleared
  | translated (x y : ℚ)
deriving DecidableEq

/-- scootTitle: when the guard avoid && avoid.selection && avoid.side && txt
holds, the group transform is cleared and then set to the shiftTemplate
translation when shift > 0 or maxshift < 0; otherwise nothing happens. -/
def scootTitle (fullW fullH : ℚ) (titlebb : BBox) (av : AvoidOpts) (txt : String) :
    TransformAttr :=
  match av.selection, av.side with
  | some els, some side =>
    if txt = "" then .untouched
    else
      let ms := scootMaxshift fullW fullH titlebb av side
      let sh := scootShiftFrom fullW fullH titlebb av els side
      if 0 < sh ∨ ms < 0 then
        let t := shiftTemplate side sh
        .translated t.1 t.2
      else .cleared
  | _, _ => .untouched

/-- The contributions of the avoided elements that intersect the
offset-adjusted title box, in selection order (the set the spec's
"maximum over avoided elements whose bounding box intersects" ranges over). -/
def intersectContribs (titlebb : BBox) (av : AvoidOpts) (els : List BBox) (side : Side) :
    List ℚ :=
  (els.filter (fun bb => bBoxIntersect (adjustedTitlebb titlebb av) bb (avoidPad av))).map
    (scootContrib side (avoidPad av) (adjustedTitlebb titlebb av))

/-! ## The Inpixon x-axis side="both" avoid branch -/

/-- shiftSign in the x-axis side="both" branch:
-1 when avoid.side === "left" or gd.layout.xaxis.side === "both". -/
def xShiftSign (av : AvoidOpts) (xaxisSide : Option String) : ℚ :=
  if av.side = some Side.left ∨ xaxisSide = some "both" then -1 else 1

/-- maxshift in the x-axis branch:
avoid.maxShift || shiftSign * (paperbb.top - titlebb.height), with paperbb.top = 0. -/
def xScootMaxshift (titlebb : BBox) (av : AvoidOpts) (xaxisSide : Option String) : ℚ :=
  jsOrQ av.maxShift (xShiftSign av xaxisSide * (0 - titlebb.height))

/-- The shift computed in the x-axis branch (same loop shape as scootTitle
but with the branch's shiftSign and maxshift). -/
def xScootShiftFrom (titlebb : BBox) (av : AvoidOpts) (els : List BBox)
    (sideA : Side) (xaxisSide : Option String) : ℚ :=
  let sign := xShiftSign av xaxisSide
  let ms := xScootMaxshift titlebb av xaxisSide
  if ms < 0 then ms
  else
    let tbb := adjustedTitlebb titlebb av
    let pad := avoidPad av
    min ms
      (els.foldl
        (fun s bb =>
          if bBoxIntersect tbb bb pad then
            max s (sign * (bb.edge sideA - tbb.edge sideA.opposite) + pad)
          else s)
        0)

/-- The x-axis branch ends with titleGroup.attr("transform",
strTranslate(shift, maxshift)) with no guard: whenever the avoid guard
holds, a translation by (shift, maxshift) is applied. -/
def xScootTitle (titlebb : BBox) (av : AvoidOpts) (xaxisSide : Option String)
    (txt : String) : TransformAttr :=
  match av.selection, av.side with
  | some els, some sideA =>
    if txt = "" then .untouched
    else
      .translated (xScootShiftFrom titlebb av els sideA xaxisSide)
        (xScootMaxshift titlebb av xaxisSide)
  | _, _ => .untouched

/-! ## Title visibility toggles (draw, titleClass xtitle / ytitle) -/

/-- A boolean-or-absent Inpixon configuration flag; strict === false holds
only for isFalse, truthiness only for isTrue. -/
inductive TriFlag
  | undef
  | isTrue
  | isFalse
deriving DecidableEq

def TriFlag.strictFalse : TriFlag → Bool
  | .isFalse => true
  | _ => false

def TriFlag.truthy : TriFlag → Bool
  | .isTrue => true
  | _ => false

/-- The hide condition for titleClass "xtitle":
(xtitletop === false && side === "top") || (xtitlebottom === false && side === "bottom")
|| (xtitlebottom === false && side === "both") || (side === ""). -/
def xtitleHidden (xtitletop xtitlebottom : TriFlag) (xaxisSide : Option String) : Bool :=
  decide ((xtitletop.strictFalse = true ∧ xaxisSide = some "top") ∨
          (xtitlebottom.strictFalse = true ∧ xaxisSide = some "bottom") ∨
          (xtitlebottom.strictFalse = true ∧ xaxisSide = some "both") ∨
          xaxisSide = some "")

/-- The text written to the xtitle element: empty when hidden, txt otherwise. -/
def xtitleText (txt : String) (xtitletop xtitlebottom : TriFlag)
    (xaxisSide : Option String) : String :=
  if xtitleHidden xtitletop xtitlebottom xaxisSide then "" else txt

/-- The hide condition for titleClass "ytitle":
(ytitleright === false && side === "right") || (ytitleleft === false && side === "left")
|| (ytitleleft === false && side === "both") || (side === ""). -/
def ytitleHidden (ytitleleft ytitleright : TriFlag) (yaxisSide : Option String) : Bool :=
  decide ((ytitleright.strictFalse = true ∧ yaxisSide = some "right") ∨
          (ytitleleft.strictFalse = true ∧ yaxisSide = some "left") ∨
          (ytitleleft.strictFalse = true ∧ yaxisSide = some "both") ∨
          yaxisSide = some "")

/-- The text written to the ytitle element: empty when hidden, txt otherwise. -/
def ytitleText (txt : String) (ytitleleft ytitleright : TriFlag)
    (yaxisSide : Option String) : String :=
  if ytitleHidden ytitleleft ytitleright yaxisSide then "" else txt

/-! ## drawTitle: transform attribute and text style -/

/-- options.transform: rotate and offset, none modelling a falsy value
(the if (transform.rotate) / if (transform.offset) guards). -/
structure TransformOpts where
  rotate : Option ℚ
  offset : Option ℚ
deriving DecidableEq

/-- Modelled from the spec: Lib.strTranslate is not under src; the spec
describes it as producing a translate(x, y) transform string. -/
def strTranslate (x y : ℚ) : String :=
  "translate(" ++ toString x ++ "," ++ toString y ++ ")"

/-- The rotate fragment: the JavaScript string concatenation
of the array [transform.rotate, attributes.x, attributes.y] joins with commas. -/
def rotateFragment (r ax ay : ℚ) : String :=
  "rotate(" ++ toString r ++ "," ++ toString ax ++ "," ++ toString ay ++ ")"

/-- The transform attribute set by drawTitle: null when options.transform is
absent, otherwise the concatenation of the rotate fragment (when rotate is
set) and strTranslate(0, offset) (when offset is set). -/
def drawTitleTransformAttr (transform : Option TransformOpts) (ax ay : ℚ) :
    Option String :=
  match transform with
  | none => none
  | some t =>
    some ((match t.rotate with
           | some r => rotateFragment r ax ay
           | none => "") ++
          (match t.offset with
           | some off => strTranslate 0 off
           | none => ""))

/-- A title font: family, size, and the rgb / opacity split that
Color.rgb and Color.opacity extract from the color string. -/
structure FontSpec where
  family : String
  size : ℚ
  colorRgb : String
  colorOpacity : ℚ
deriving DecidableEq

/-- d3.round(x, 2) = Math.round(x * 100) / 100. -/
def d3round2 (q : ℚ) : ℚ := ((q * 100 + 1 / 2).floor : ℚ) / 100

/-- The style properties drawTitle sets on the title element. -/
structure TitleStyle where
  fontFamily : String
  fontSize : String
  fill : String
  opacity : ℚ
deriving DecidableEq

/-- The style block of drawTitle: font family, rounded size in px,
rgb fill, and opacity scaled by the font color opacity. -/
def drawTitleStyle (font : FontSpec) (opacity : ℚ) : TitleStyle :=
  { fontFamily := font.family
    fontSize := toString (d3round2 font.size) ++ "px"
    fill := font.colorRgb
    opacity := opacity * font.colorOpacity }

/-! ## The side="both" duplicate axis titles and the standoff branch -/

/-- The fields of a (fullLayout) axis used by the side="both" branches. -/
structure AxisRec where
  sideF : String
  atype : String
  fontSize : ℚ
  depth : ℚ
  standoff : Option ℚ
  linewidth : ℚ
  showticklabels : Bool
  anchorFree : Bool
  anchorOffset : ℚ
  anchorLength : ℚ
  offset : ℚ
  alength : ℚ
  position : ℚ
deriving DecidableEq

/-- gd._fullLayout._size. -/
structure PlotSize where
  t : ℚ
  l : ℚ
  w : ℚ
  h : ℚ
deriving DecidableEq

/-- The standoff base shared by both branches (isInside is the constant
false, so offsetBase is 1.5 * fontSize):
multicategory axes use ax._depth, otherwise
10 + 1.5 * fontSize + (linewidth ? linewidth - 1 : 0). -/
def titleStandoffBase (ax : AxisRec) : ℚ :=
  if ax.atype = "multicategory" then ax.depth
  else 10 + 1.5 * ax.fontSize + (if ax.linewidth = 0 then 0 else ax.linewidth - 1)

/-- titleStandoff on the no-standoff path of the x-axis branch (axLetter
is always "x" there): the base plus the x tick-label allowance. -/
def xStandoffNoProp (ax : AxisRec) : ℚ :=
  titleStandoffBase ax +
    (if ax.sideF = "top" then ax.fontSize * (if ax.showticklabels then 1 else 0)
     else ax.fontSize * (if ax.showticklabels then 1.5 else 0.5))

/-- titleStandoff on the no-standoff path of the y-axis branch (axLetter
is always "y" there). -/
def yStandoffNoProp (ax : AxisRec) : ℚ :=
  titleStandoffBase ax +
    (if ax.sideF = "right" then ax.fontSize * (if ax.showticklabels then 1 else 0.5)
     else ax.fontSize * (if ax.showticklabels then 0.5 else 0))

/-- titleStandoff in the x-axis branch: the standoff-property path calls
the undefined approxTitleDepth and raises a ReferenceError. -/
def xTitleStandoffE (ax : AxisRec) : Except String ℚ :=
  match ax.standoff with
  | some _ => .error "ReferenceError: approxTitleDepth is not defined"
  | none => .ok (xStandoffNoProp ax)

/-- titleStandoff in the y-axis branch. -/
def yTitleStandoffE (ax : AxisRec) : Except String ℚ :=
  match ax.standoff with
  | some _ => .error "ReferenceError: approxTitleDepth is not defined"
  | none => .ok (yStandoffNoProp ax)

/-- The opacity style value of a duplicate title: a number when the axis
side is "both", the string "0" otherwise. -/
inductive OpacityVal
  | num (q : ℚ)
  | strZero
deriving DecidableEq

/-- A duplicate axis-title text element: its text, opacity style, final
x/y attributes and its rotate transform (angle, cx, cy) when present. -/
structure BothTitleEl where
  text : String
  opac : OpacityVal
  x : ℚ
  y : ℚ
  rotTransform : Option (ℚ × ℚ × ℚ)
deriving DecidableEq

/-- The inputs of draw that the side="both" branches read. -/
structure BothInputs where
  xaxisSide : Option String
  yaxisSide : Option String
  xtitletop : TriFlag
  xtitlebottom : TriFlag
  ytitleleft : TriFlag
  ytitleright : TriFlag
  xLayoutTitle : String
  yLayoutTitle : String
  xax : AxisRec
  yax : AxisRec
  gs : PlotSize
  opacity : ℚ
  fontColorOpacity : ℚ
deriving DecidableEq

/-- Guard of the x-axis branch: xaxisSide is "both", "bottom" or "top". -/
def xBothEntered (bi : BothInputs) : Bool :=
  decide (bi.xaxisSide = some "both" ∨ bi.xaxisSide = some "bottom" ∨
          bi.xaxisSide = some "top")

/-- Guard of the y-axis branch: yaxisSide is "both", "left" or "right". -/
def yBothEntered (bi : BothInputs) : Bool :=
  decide (bi.yaxisSide = some "both" ∨ bi.yaxisSide = some "left" ∨
          bi.yaxisSide = some "right")

/-- The x attribute of the xtitle-both element: ax._offset + ax._length / 2. -/
def xBothX (bi : BothInputs) : ℚ := bi.xax.offset + bi.xax.alength / 2

/-- The y attribute of the xtitle-both element:
anchorAxis._offset - titleStandoff, with the free-anchor fallback
gs.t + (1 - ax.position) * gs.h. -/
def xBothY (bi : BothInputs) (ts : ℚ) : ℚ :=
  (if bi.xax.anchorFree then bi.gs.t + (1 - bi.xax.position) * bi.gs.h
   else bi.xax.anchorOffset) - ts

/-- The y attribute of the ytitle-both element: ax._offset + ax._length / 2. -/
def yBothY (bi : BothInputs) : ℚ := bi.yax.offset + bi.yax.alength / 2

/-- The x attribute of the ytitle-both element:
anchorAxis._offset + anchorAxis._length + titleStandoff, with the
free-anchor fallback offset gs.l + ax.position * gs.w and length 0. -/
def yBothX (bi : BothInputs) (ts : ℚ) : ℚ :=
  (if bi.yax.anchorFree then bi.gs.l + bi.yax.position * bi.gs.w
   else bi.yax.anchorOffset + bi.yax.anchorLength) + ts

/-- The x-axis side="both" branch of draw: none when not entered, the
created duplicate element otherwise; the standoff path raises. -/
def drawXBoth (bi : BothInputs) : Except String (Option BothTitleEl) :=
  if xBothEntered bi then
    match xTitleStandoffE bi.xax with
    | .error e => .error e
    | .ok ts =>
      .ok (some
        { text :=
            if bi.xtitletop.truthy ∧ bi.xaxisSide = some "both" then bi.xLayoutTitle
            else ""
          opac :=
            if bi.xaxisSide = some "both" then .num (bi.opacity * bi.fontColorOpacity)
            else .strZero
          x := xBothX bi
          y := xBothY bi ts
          rotTransform := none })
  else .ok none

/-- The y-axis side="both" branch of draw: the duplicate element is also
rotated by rotate(-270, x, y) about its anchor. -/
def drawYBoth (bi : BothInputs) : Except String (Option BothTitleEl) :=
  if yBothEntered bi then
    match yTitleStandoffE bi.yax with
    | .error e => .error e
    | .ok ts =>
      .ok (some
        { text :=
            if bi.ytitleright.truthy ∧ bi.yaxisSide = some "both" then bi.yLayoutTitle
            else ""
          opac :=
            if bi.yaxisSide = some "both" then .num (bi.opacity * bi.fontColorOpacity)
            else .strZero
          x := yBothX bi ts
          y := yBothY bi
          rotTransform := some (-270, yBothX bi ts, yBothY bi) })
  else .ok none

/-- Both branches in source order: the x branch runs first, its error
aborts draw before the y branch. -/
def drawBothBranches (bi : BothInputs) :
    Except String (Option BothTitleEl × Option BothTitleEl) :=
  match drawXBoth bi with
  | .error e => .error e
  | .ok xr =>
    match drawYBoth bi with
    | .error e => .error e
    | .ok yr => .ok (xr, yr)

/-! ## Legend style: symbol placement, box sizing (the first .each of style) -/

/-- The mutable legend object fields the style module reads and writes. -/
structure LegendState where
  itemwidth : ℚ
  lwidth : ℚ
  valign : String
  hidetoggle : Bool
deriving DecidableEq

/-- The Inpixon legend attributes read by style: aftertext models
symbolplacement.aftertext === true, boxsizingSize the parseInt of
boxsizing.size (none when absent or NaN), symbolstyle the
symbolstyle.style string. -/
structure InpixonLegendCfg where
  aftertext : Bool
  boxsizingSize : Option ℤ
  symbolstyle : Option String
deriving DecidableEq

/-- JavaScript truthiness of an optional number. -/
def jsTruthyQ : Option ℚ → Bool
  | none => false
  | some q => decide (q ≠ 0)

/-- The {top: 1, bottom: -1} lookup for valign. -/
def valignFactor (v : String) : ℚ :=
  if v = "top" then 1 else if v = "bottom" then -1 else 0

/-- The vertical-alignment transform of the layers group: null for middle
valign or falsy lineHeight/height, otherwise
translate(0, factor * (0.5 * (lineHeight - height + 3))). -/
def valignTransform (valign : String) (lineHeight height : Option ℚ) :
    Option (ℚ × ℚ) :=
  if valign = "middle" ∨ jsTruthyQ lineHeight = false ∨ jsTruthyQ height = false then
    none
  else
    some (0, valignFactor valign * (0.5 * (lineHeight.getD 0 - height.getD 0 + 3)))

/-- isBoxSizingValid: boxSizingAttribute >= 0 (NaN fails) and
legend._width < fullLayout.width. -/
def isBoxSizingValid (cfg : InpixonLegendCfg) (legendWidth fullWidth : ℚ) : Bool :=
  (match cfg.boxsizingSize with
   | some n => decide (0 ≤ n)
   | none => false) && decide (legendWidth < fullWidth)

/-- boxSizingAttribute as a rational (only read when isBoxSizingValid). -/
def boxSizeQ (cfg : InpixonLegendCfg) : ℚ :=
  match cfg.boxsizingSize with
  | some n => (n : ℚ)
  | none => 0

/-- The final transform of the layers group after the symbol-placement and
box-sizing customisation: with aftertext the glyphs move to
legend._width - legend.itemwidth - 2 * itemGap (minus half the box size
when valid); otherwise half the box size when valid, else the
vertical-alignment transform is kept. -/
def layersTransform (itemGap : ℚ) (legend : LegendState) (cfg : InpixonLegendCfg)
    (fullWidth : ℚ) (valignT : Option (ℚ × ℚ)) : Option (ℚ × ℚ) :=
  if cfg.aftertext then
    let moveBy :=
      if isBoxSizingValid cfg legend.lwidth fullWidth then
        legend.lwidth - legend.itemwidth - 2 * itemGap - boxSizeQ cfg * (1 / 2)
      else legend.lwidth - legend.itemwidth - 2 * itemGap
    some (moveBy, 0)
  else if isBoxSizingValid cfg legend.lwidth fullWidth then
    some (boxSizeQ cfg * (1 / 2), 0)
  else valignT

/-! ## styleLines: the symbolstyle "none" mutation of legend.itemwidth -/

/-- The effect of one styleLines call on the caller-owned legend object:
legend.itemwidth is set to 0 when symbolstyle.style === "none"; no other
field is written. -/
def styleLinesLegend (cfg : InpixonLegendCfg) (legend : LegendState) : LegendState :=
  if cfg.symbolstyle = some "markers" ∨ cfg.symbolstyle = some "none" then
    if cfg.symbolstyle = some "none" then { legend with itemwidth := 0 } else legend
  else legend

/-- centerPos = (itemWidth + itemGap * 2) / 2, from the itemwidth read at
the start of the style call. -/
def centerPos (itemGap : ℚ) (legend : LegendState) : ℚ :=
  (legend.itemwidth + itemGap * 2) / 2

/-- One style call over a list of legend items: centerTransform is
computed from the entry itemwidth, then styleLines runs once per item,
threading the legend object. -/
def styleCall (itemGap : ℚ) (cfg : InpixonLegendCfg) (items : List Unit)
    (legend : LegendState) : ℚ × LegendState :=
  (centerPos itemGap legend,
   items.foldl (fun lg _ => styleLinesLegend cfg lg) legend)

/-! ## getStyleGuide and the paths drawn by styleLines / stylePoints -/

/-- The contours object of a trace. -/
structure ContoursRec where
  coloring : Option String
  showlines : Bool
  ctype : Option String
  operation : Option String
deriving DecidableEq

/-- The trace fields getStyleGuide reads; hasLines/hasMarkers embed the
subTypes predicates the module calls on the trace. -/
structure TraceRec where
  visible : Bool
  hasLines : Bool
  hasMarkers : Bool
  fill : Option String
  contours : Option ContoursRec
deriving DecidableEq

/-- trace.fill && trace.fill !== "none" as a boolean. -/
def jsFillTruthy : Option String → Bool
  | none => false
  | some s => decide (s ≠ "" ∧ s ≠ "none")

/-- The record getStyleGuide returns. -/
structure StyleGuide where
  showMarker : Bool
  showLine : Bool
  showFill : Bool
  showGradientLine : Bool
  showGradientFill : Bool
  anyLine : Bool
  anyFill : Bool
deriving DecidableEq

/-- getStyleGuide: the pre-toggle show flags with the contours overrides,
then every show flag forced false under hidetoggle while anyLine/anyFill
keep the pre-toggle values. -/
def getStyleGuide (t : TraceRec) (hidetoggle : Bool) : StyleGuide :=
  let showMarker := t.hasMarkers
  let showLine0 := t.hasLines
  let showFill0 := t.visible && jsFillTruthy t.fill
  let quad :=
    match t.contours with
    | none => (showLine0, showFill0, false, false)
    | some c =>
      let showGradientLine := decide (c.coloring = some "lines")
      let showLine :=
        if c.coloring = some "lines" then showLine0
        else
          decide (c.coloring = some "none" ∨ c.coloring = some "heatmap") || c.showlines
      let showFill :=
        if c.ctype = some "constraint" then decide (¬ c.operation = some "=")
        else showFill0
      let showGradientFill :=
        decide (¬ c.ctype = some "constraint") &&
          decide (c.coloring = some "fill" ∨ c.coloring = some "heatmap")
      (showLine, showFill, showGradientLine, showGradientFill)
  { showMarker := if hidetoggle then false else showMarker
    showLine := if hidetoggle then false else quad.1
    showFill := if hidetoggle then false else quad.2.1
    showGradientLine := if hidetoggle then false else quad.2.2.1
    showGradientFill := if hidetoggle then false else quad.2.2.2
    anyLine := quad.1 || quad.2.2.1
    anyFill := quad.2.1 || quad.2.2.2 }

/-- The pathStart baseline of styleLines:
markers or no fill give M5,0, a line M5,-2, otherwise M5,-3. -/
def pathStart (hasMarkers anyFill anyLine : Bool) : String :=
  if hasMarkers || !anyFill then "M5,0" else if anyLine then "M5,-2" else "M5,-3"

/-- The data bound to the legendfill path selection: one item when
showFill or showGradientFill holds, none otherwise. -/
def legendFillData (g : StyleGuide) : List Unit :=
  if g.showFill || g.showGradientFill then [()] else []

/-- The data bound to the legendlines path selection. -/
def legendLineData (g : StyleGuide) : List Unit :=
  if g.showLine || g.showGradientLine then [()] else []

/-- The data bound to the scatterpts marker selection in stylePoints
(the symbolstyle override can only clear showMarker further). -/
def legendMarkerData (g : StyleGuide) (cfg : InpixonLegendCfg) : List Unit :=
  if (if cfg.symbolstyle = some "lines" ∨ cfg.symbolstyle = some "none" then false
      else g.showMarker) then [()] else []

/-! ## styleSpatial: per-trace-type glyph path selection -/

/-- How the glyph paths of styleSpatial are filled: linear gradient
(useGradient true), radial gradient, solid colors (useGradient false), or
the undefined default of the switch. -/
inductive GradientMode
  | undef
  | solid
  | linear
  | radial
deriving DecidableEq

/-- The path strings and gradient mode chosen by the switch in
styleSpatial, keyed by trace.type, with the Inpixon itemheight parameter
interpolated; invisible traces and unknown types keep the empty data and
undefined useGradient. -/
def styleSpatialPts (visible : Bool) (ttype : String) (ih : ℚ) :
    List String × GradientMode :=
  if visible = false then ([], .undef)
  else if ttype = "histogram2d" ∨ ttype = "heatmap" then
    (["M-15,-" ++ toString (ih / 15) ++ "V" ++ toString (ih / 5) ++ "H15V-" ++
        toString (ih / 15) ++ "Z"],
     .linear)
  else if ttype = "choropleth" ∨ ttype = "choroplethmapbox" then
    (["M-6,-6V" ++ toString (ih / 5) ++ "H6V-6Z"], .linear)
  else if ttype = "densitymapbox" then
    (["M-6,0 a6,6 0 1,0 12,0 a 6,6 0 1,0 -12,0"], .radial)
  else if ttype = "cone" then
    (["M-6,2 A2,2 0 0,0 -6,6 V6L6,4Z",
      "M-6,-6 A2,2 0 0,0 -6,-2 L6,-4Z",
      "M-6,-2 A2,2 0 0,0 -6,2 L6,0Z"],
     .solid)
  else if ttype = "streamtube" then
    (["M-6,2 A2,2 0 0,0 -6,6 H6 A2,2 0 0,1 6,2 Z",
      "M-6,-6 A2,2 0 0,0 -6,-2 H6 A2,2 0 0,1 6,-6 Z",
      "M-6,-2 A2,2 0 0,0 -6,2 H6 A2,2 0 0,1 6,-2 Z"],
     .solid)
  else if ttype = "surface" then
    (["M-6,-6 A2,3 0 0,0 -6,0 H6 A2,3 0 0,1 6,-6 Z",
      "M-6,1 A2,3 0 0,1 -6,6 H6 A2,3 0 0,0 6,0 Z"],
     .linear)
  else if ttype = "mesh3d" then
    (["M-6,6H0L-6,-6Z", "M6,6H0L6,-6Z", "M-6,-6H6L0,6Z"], .solid)
  else if ttype = "volume" then
    (["M-6,6H0L-6,-6Z", "M6,6H0L6,-6Z", "M-6,-6H6L0,6Z"], .linear)
  else if ttype = "isosurface" then
    (["M-6,6H0L-6,-6Z", "M6,6H0L6,-6Z", "M-6,-6 A12,24 0 0,0 6,-6 L0,6Z"], .solid)
  else ([], .undef)

/-- The trace types that receive a legend3dandfriends path. -/
def spatialTypes : List String :=
  ["histogram2d", "heatmap", "choropleth", "choroplethmapbox", "densitymapbox",
   "cone", "streamtube", "surface", "mesh3d", "volume", "isosurface"]

/-- getGradientDirection: radial or horizontal, reversed unless
reversescale. -/
def getGradientDirection (reversescale isRadial : Bool) : String :=
  (if isRadial then "radial" else "horizontal") ++
    (if reversescale then "" else "reversed")

/-! ## Helper lemmas on running maxima -/

theorem foldl_max_filter_map {α : Type} (p : α → Bool) (f : α → ℚ)
    (l : List α) (a : ℚ) :
    l.foldl (fun s x => if p x then max s (f x) else s) a
      = ((l.filter p).map f).foldl max a := by
  induction l generalizing a with
  | nil => rfl
  | cons x xs ih =>
    by_cases h : p x
    · simp only [List.foldl_cons, List.filter_cons, h, if_true, List.map_cons]
      exact ih (max a (f x))
    · simp only [List.foldl_cons, List.filter_cons, h, if_false,
        Bool.false_eq_true]
      exact ih a

theorem init_le_foldl_max (l : List ℚ) (a : ℚ) : a ≤ l.foldl max a := by
  induction l generalizing a with
  | nil => exact le_refl a
  | cons x xs ih => exact le_trans (le_max_left a x) (ih (max a x))

theorem le_foldl_max_of_mem (l : List ℚ) (x : ℚ) (hx : x ∈ l) :
    ∀ a, x ≤ l.foldl max a := by
  induction hx with
  | head ys =>
    intro a
    exact le_trans (le_max_right a x) (init_le_foldl_max ys (max a x))
  | tail y hmem ih =>
    intro a
    exact ih (max a y)

theorem foldl_max_eq_init_or_mem (l : List ℚ) :
    ∀ a, l.foldl max a = a ∨ l.foldl max a ∈ l := by
  induction l with
  | nil => intro a; left; rfl
  | cons x xs ih =>
    intro a
    rcases ih (max a x) with h | h
    · rw [List.foldl_cons, h]
      rcases max_choice a x with h2 | h2
      · left; exact h2
      · right; rw [h2]; exact List.mem_cons_self x xs
    · right
      rw [List.foldl_cons]
      exact List.mem_cons_of_mem x h

theorem foldl_max_zero_mem (l : List ℚ) (hne : l ≠ [])
    (hnn : ∀ x ∈ l, 0 ≤ x) : l.foldl max 0 ∈ l := by
  rcases foldl_max_eq_init_or_mem l 0 with h | h
  · cases l with
    | nil => exact absurd rfl hne
    | cons x xs =>
      have hx : x ≤ (x :: xs).foldl max 0 :=
        le_foldl_max_of_mem _ x (List.mem_cons_self x xs) 0
      have h0 : (0 : ℚ) ≤ x := hnn x (List.mem_cons_self x xs)
      have hx0 : x = 0 := le_antisymm (h ▸ hx) h0
      rw [h, ← hx0]
      exact List.mem_cons_self x xs
  · exact h

/-- An avoided element that intersects the (pad-expanded) title box always
yields a nonnegative shift candidate, for every side. -/
theorem scootContrib_nonneg (side : Side) (pad : ℚ) (tbb bb : BBox)
    (h : bBoxIntersect tbb bb pad = true) : 0 ≤ scootContrib side pad tbb bb := by
  have hp := of_decide_eq_true h
  obtain ⟨h1, h2, h3, h4⟩ := hp
  cases side <;>
    simp only [scootContrib, shiftSign, BBox.edge, Side.opposite] <;> linarith

theorem intersectContribs_nonneg (titlebb : BBox) (av : AvoidOpts)
    (els : List BBox) (side : Side) :
    ∀ c ∈ intersectContribs titlebb av els side, 0 ≤ c := by
  intro c hc
  obtain ⟨bb, hbb, rfl⟩ := List.mem_map.mp hc
  exact scootContrib_nonneg side (avoidPad av) (adjustedTitlebb titlebb av) bb
    (List.mem_filter.mp hbb).2

/-! ## Claim theorems -/

/-- C1: with a non-empty title text and an avoid option carrying a
selection and a side, when maxshift is nonnegative the computed shift is
the maximum of the clearing offsets
shiftSign * (avoidbb[avoid.side] - titlebb[opposite side]) + pad over the
avoided elements intersecting the title box within pad, capped at
maxshift (the foldl-max is a genuine maximum: it bounds every
contribution and is attained when any element intersects); a positive
shift translates the group by the avoid.side template, and when no
element intersects no translation is applied. -/
theorem scootTitle_min_clearing_shift
    (fullW fullH : ℚ) (titlebb : BBox) (av : AvoidOpts) (els : List BBox)
    (side : Side) (txt : String)
    (hsel : av.selection = some els) (hside : av.side = some side)
    (htxt : ¬ txt = "")
    (hms : 0 ≤ scootMaxshift fullW fullH titlebb av side) :
    scootShiftFrom fullW fullH titlebb av els side
        = min (scootMaxshift fullW fullH titlebb av side)
            ((intersectContribs titlebb av els side).foldl max 0)
    ∧ (∀ c ∈ intersectContribs titlebb av els side,
        c ≤ (intersectContribs titlebb av els side).foldl max 0)
    ∧ (intersectContribs titlebb av els side ≠ [] →
        (intersectContribs titlebb av els side).foldl max 0 ∈
          intersectContribs titlebb av els side)
    ∧ (0 < scootShiftFrom fullW fullH titlebb av els side →
        scootTitle fullW fullH titlebb av txt =
          TransformAttr.translated
            (shiftTemplate side (scootShiftFrom fullW fullH titlebb av els side)).1
            (shiftTemplate side (scootShiftFrom fullW fullH titlebb av els side)).2)
    ∧ (intersectContribs titlebb av els side = [] →
        scootTitle fullW fullH titlebb av txt = TransformAttr.cleared) := by
  have hnotlt : ¬ scootMaxshift fullW fullH titlebb av side < 0 := not_lt.mpr hms
  have hshift : scootShiftFrom fullW fullH titlebb av els side
      = min (scootMaxshift fullW fullH titlebb av side)
          ((intersectContribs titlebb av els side).foldl max 0) := by
    simp only [scootShiftFrom, intersectContribs]
    rw [if_neg hnotlt, foldl_max_filter_map]
  refine ⟨hshift, ?_, ?_, ?_, ?_⟩
  · intro c hc
    exact le_foldl_max_of_mem _ c hc 0
  · intro hne
    exact foldl_max_zero_mem _ hne (intersectContribs_nonneg titlebb av els side)
  · intro hpos
    simp only [scootTitle, hsel, hside, if_neg htxt]
    rw [if_pos (Or.inl hpos)]
  · intro hnil
    have h0 : scootShiftFrom fullW fullH titlebb av els side = 0 := by
      rw [hshift, hnil]
      simpa using hms
    simp only [scootTitle, hsel, hside, if_neg htxt]
    rw [if_neg]
    push_neg
    exact ⟨by rw [h0], hms⟩

/-- Concrete title box used for the witnesses and the counterexample. -/
def cTitlebb : BBox :=
  { left := 10, top := 20, right := 110, bottom := 50, width := 100, height := 30 }

/-- Concrete avoid options: an empty selection toward the top, every
optional field absent. -/
def cAvoid : AvoidOpts :=
  { selection := some [], side := some .top, offsetLeft := 0, offsetTop := 0,
    pad := none, maxShift := none }

theorem cScootMaxshift_val : scootMaxshift 300 200 cTitlebb cAvoid Side.top = 20 := by
  norm_num [scootMaxshift, jsOrQ, cAvoid, cTitlebb, shiftSign, paperEdge, BBox.edge]

theorem xScootMaxshift_val : xScootMaxshift cTitlebb cAvoid (some "both") = 30 := by
  norm_num [xScootMaxshift, jsOrQ, cAvoid, cTitlebb, xShiftSign]

theorem xScootShiftFrom_val :
    xScootShiftFrom cTitlebb cAvoid [] Side.top (some "both") = 0 := by
  simp only [xScootShiftFrom]
  rw [xScootMaxshift_val]
  norm_num

/-- Shared unfolding of the x-axis branch under its avoid guard. -/
theorem xScootTitle_eq (titlebb : BBox) (av : AvoidOpts) (els : List BBox)
    (sideA : Side) (xaxisSide : Option String) (txt : String)
    (hsel : av.selection = some els) (hside : av.side = some sideA)
    (htxt : ¬ txt = "") :
    xScootTitle titlebb av xaxisSide txt
      = TransformAttr.translated (xScootShiftFrom titlebb av els sideA xaxisSide)
          (xScootMaxshift titlebb av xaxisSide) := by
  simp only [xScootTitle, hsel, hside, if_neg htxt]

theorem scootTitle_min_clearing_shift_witness :
    (0 : ℚ) ≤ scootMaxshift 300 200 cTitlebb cAvoid Side.top
    ∧ scootTitle 300 200 cTitlebb cAvoid "Speed" = TransformAttr.cleared := by
  have hms : (0 : ℚ) ≤ scootMaxshift 300 200 cTitlebb cAvoid Side.top := by
    rw [cScootMaxshift_val]; norm_num
  refine ⟨hms, ?_⟩
  exact (scootTitle_min_clearing_shift 300 200 cTitlebb cAvoid [] Side.top "Speed"
    rfl rfl (by decide) hms).2.2.2.2 rfl

/-- C2 as stated is false: in the Inpixon x-axis side="both" branch, with
an empty avoid selection (so shift = 0) and maxshift = 30 >= 0, a
translate(0, 30) transform is still applied, and the branch's maxshift is
not shiftSign * (paperbb[avoid.side] - titlebb[avoid.side]) (= 20 here)
but shiftSign * (paperbb.top - titlebb.height) (= 30). -/
theorem xscoot_transform_without_conflict :
    xScootTitle cTitlebb cAvoid (some "both") "Speed"
        = TransformAttr.translated 0 30
    ∧ ¬ (0 < xScootShiftFrom cTitlebb cAvoid [] Side.top (some "both")
          ∨ xScootMaxshift cTitlebb cAvoid (some "both") < 0)
    ∧ ¬ (xScootMaxshift cTitlebb cAvoid (some "both")
          = shiftSign Side.top * (paperEdge 300 200 Side.top - cTitlebb.edge Side.top)) := by
  refine ⟨?_, ?_, ?_⟩
  · rw [xScootTitle_eq cTitlebb cAvoid [] Side.top (some "both") "Speed" rfl rfl
      (by decide), xScootShiftFrom_val, xScootMaxshift_val]
  · rw [xScootShiftFrom_val, xScootMaxshift_val]
    norm_num
  · rw [xScootMaxshift_val]
    norm_num [shiftSign, paperEdge, cTitlebb, BBox.edge]

/-- C2 amended: the invariants hold on the generic scootTitle path — the
shift never exceeds maxshift, maxshift defaults to
shiftSign * (paper edge - titlebb edge) on avoid.side, a negative
maxshift forces shift = maxshift, and a translation is applied exactly
when shift > 0 or maxshift < 0. The x-axis side="both" branch instead
defaults maxshift to shiftSign * (0 - titlebb.height), with shiftSign -1
when avoid.side is left or xaxis.side is "both", and unconditionally
applies translate(shift, maxshift) whenever avoidance runs. -/
theorem scoot_shift_bounds
    (fullW fullH : ℚ) (titlebb : BBox) (av : AvoidOpts) (els : List BBox)
    (side : Side) (xaxisSide : Option String) (txt : String)
    (hsel : av.selection = some els) (hside : av.side = some side)
    (htxt : ¬ txt = "") :
    scootShiftFrom fullW fullH titlebb av els side
        ≤ scootMaxshift fullW fullH titlebb av side
    ∧ (scootMaxshift fullW fullH titlebb av side < 0 →
        scootShiftFrom fullW fullH titlebb av els side
          = scootMaxshift fullW fullH titlebb av side)
    ∧ (av.maxShift = none →
        scootMaxshift fullW fullH titlebb av side
          = shiftSign side * (paperEdge fullW fullH side - titlebb.edge side))
    ∧ ((∃ x y, scootTitle fullW fullH titlebb av txt = TransformAttr.translated x y)
        ↔ (0 < scootShiftFrom fullW fullH titlebb av els side
            ∨ scootMaxshift fullW fullH titlebb av side < 0))
    ∧ xScootTitle titlebb av xaxisSide txt
        = TransformAttr.translated (xScootShiftFrom titlebb av els side xaxisSide)
            (xScootMaxshift titlebb av xaxisSide)
    ∧ (av.maxShift = none →
        xScootMaxshift titlebb av xaxisSide
          = xShiftSign av xaxisSide * (0 - titlebb.height)) := by
  refine ⟨?_, ?_, ?_, ?_, ?_, ?_⟩
  · by_cases h : scootMaxshift fullW fullH titlebb av side < 0
    · simp only [scootShiftFrom]
      rw [if_pos h]
    · simp only [scootShiftFrom]
      rw [if_neg h]
      exact min_le_left _ _
  · intro h
    simp only [scootShiftFrom]
    rw [if_pos h]
  · intro h
    simp [scootMaxshift, jsOrQ, h]
  · constructor
    · rintro ⟨x, y, hxy⟩
      by_contra hcon
      simp only [scootTitle, hsel, hside, if_neg htxt] at hxy
      rw [if_neg hcon] at hxy
      exact TransformAttr.noConfusion hxy
    · intro h
      simp only [scootTitle, hsel, hside, if_neg htxt]
      rw [if_pos h]
      exact ⟨_, _, rfl⟩
  · simp only [xScootTitle, hsel, hside, if_neg htxt]
  · intro h
    simp [xScootMaxshift, jsOrQ, h]

theorem scoot_shift_bounds_witness :
    scootShiftFrom 300 200 cTitlebb cAvoid [] Side.top
        ≤ scootMaxshift 300 200 cTitlebb cAvoid Side.top
    ∧ xScootTitle cTitlebb cAvoid (some "top") "Speed"
        = TransformAttr.translated
            (xScootShiftFrom cTitlebb cAvoid [] Side.top (some "top"))
            (xScootMaxshift cTitlebb cAvoid (some "top")) := by
  have h := scoot_shift_bounds 300 200 cTitlebb cAvoid [] Side.top (some "top")
    "Speed" rfl rfl (by decide)
  exact ⟨h.1, h.2.2.2.2.1⟩

theorem TriFlag.strictFalse_iff (f : TriFlag) :
    f.strictFalse = true ↔ f = TriFlag.isFalse := by
  cases f <;> simp [TriFlag.strictFalse]

set_option maxHeartbeats 1000000 in
/-- C3: with a non-empty title text, the xtitle element text is emptied
exactly when (xtitletop === false and xaxis.side is "top") or
(xtitlebottom === false and xaxis.side is "bottom" or "both") or
xaxis.side === ""; symmetrically the ytitle text is emptied exactly when
(ytitleright === false and yaxis.side is "right") or (ytitleleft ===
false and yaxis.side is "left" or "both") or yaxis.side === "". -/
theorem axis_title_visibility (txt : String) (xt xb yl yr : TriFlag)
    (xside yside : Option String) (htxt : ¬ txt = "") :
    (xtitleText txt xt xb xside = "" ↔
      ((xt = TriFlag.isFalse ∧ xside = some "top") ∨
       (xb = TriFlag.isFalse ∧ (xside = some "bottom" ∨ xside = some "both")) ∨
       xside = some ""))
    ∧ (ytitleText txt yl yr yside = "" ↔
      ((yr = TriFlag.isFalse ∧ yside = some "right") ∨
       (yl = TriFlag.isFalse ∧ (yside = some "left" ∨ yside = some "both")) ∨
       yside = some "")) := by
  have hx2 : xtitleText txt xt xb xside = "" ↔ xtitleHidden xt xb xside = true := by
    unfold xtitleText
    by_cases h : xtitleHidden xt xb xside = true
    · simp [h]
    · simp [h, htxt]
  have hy2 : ytitleText txt yl yr yside = "" ↔ ytitleHidden yl yr yside = true := by
    unfold ytitleText
    by_cases h : ytitleHidden yl yr yside = true
    · simp [h]
    · simp [h, htxt]
  have hx : xtitleHidden xt xb xside = true ↔
      ((xt = TriFlag.isFalse ∧ xside = some "top") ∨
       (xb = TriFlag.isFalse ∧ (xside = some "bottom" ∨ xside = some "both")) ∨
       xside = some "") := by
    simp only [xtitleHidden, decide_eq_true_eq, TriFlag.strictFalse_iff]
    tauto
  have hy : ytitleHidden yl yr yside = true ↔
      ((yr = TriFlag.isFalse ∧ yside = some "right") ∨
       (yl = TriFlag.isFalse ∧ (yside = some "left" ∨ yside = some "both")) ∨
       yside = some "") := by
    simp only [ytitleHidden, decide_eq_true_eq, TriFlag.strictFalse_iff]
    tauto
  exact ⟨hx2.trans hx, hy2.trans hy⟩

theorem axis_title_visibility_witness :
    xtitleText "Speed" TriFlag.undef TriFlag.isFalse (some "both") = ""
    ∧ ¬ ytitleText "Speed" TriFlag.undef TriFlag.undef (some "left") = "" := by
  have h := axis_title_visibility "Speed" TriFlag.undef TriFlag.isFalse
    TriFlag.undef TriFlag.undef (some "both") (some "left") (by decide)
  refine ⟨h.1.mpr (Or.inr (Or.inl ⟨rfl, Or.inr rfl⟩)), fun hc => ?_⟩
  exact absurd (h.2.mp hc) (by decide)

/-- C4: whenever the side="both" branches run with no standoff property,
the duplicate x (resp. y) title element carries the layout axis title
text exactly when xtitletop (resp. ytitleright) is truthy and the axis
side is "both" and empty text otherwise, its opacity style is
opacity * Color.opacity(fontColor) when the side is "both" and the
string "0" otherwise, and the y duplicate is rotated by
rotate(-270, x, y) about its computed anchor. -/
theorem side_both_duplicate_titles (bi : BothInputs)
    (hxe : xBothEntered bi = true) (hye : yBothEntered bi = true)
    (hsx : bi.xax.standoff = none) (hsy : bi.yax.standoff = none) :
    drawXBoth bi = .ok (some
      { text := if bi.xtitletop.truthy ∧ bi.xaxisSide = some "both" then
                  bi.xLayoutTitle
                else ""
        opac := if bi.xaxisSide = some "both" then
                  .num (bi.opacity * bi.fontColorOpacity)
                else .strZero
        x := xBothX bi
        y := xBothY bi (xStandoffNoProp bi.xax)
        rotTransform := none })
    ∧ drawYBoth bi = .ok (some
      { text := if bi.ytitleright.truthy ∧ bi.yaxisSide = some "both" then
                  bi.yLayoutTitle
                else ""
        opac := if bi.yaxisSide = some "both" then
                  .num (bi.opacity * bi.fontColorOpacity)
                else .strZero
        x := yBothX bi (yStandoffNoProp bi.yax)
        y := yBothY bi
        rotTransform := some (-270, yBothX bi (yStandoffNoProp bi.yax), yBothY bi) }) := by
  constructor
  · simp [drawXBoth, hxe, xTitleStandoffE, hsx]
  · simp [drawYBoth, hye, yTitleStandoffE, hsy]

/-- Concrete axis for the side="both" witnesses. -/
def cAxis : AxisRec :=
  { sideF := "both", atype := "linear", fontSize := 12, depth := 0,
    standoff := none, linewidth := 1, showticklabels := true,
    anchorFree := false, anchorOffset := 40, anchorLength := 0,
    offset := 80, alength := 200, position := 0 }

/-- Concrete draw inputs with both axes on side "both". -/
def cBoth : BothInputs :=
  { xaxisSide := some "both", yaxisSide := some "both",
    xtitletop := .isTrue, xtitlebottom := .undef,
    ytitleleft := .undef, ytitleright := .isTrue,
    xLayoutTitle := "Distance", yLayoutTitle := "Speed",
    xax := cAxis, yax := cAxis,
    gs := { t := 10, l := 20, w := 400, h := 300 },
    opacity := 1, fontColorOpacity := 1 }

theorem side_both_duplicate_titles_witness :
    drawXBoth cBoth = .ok (some
      { text := "Distance", opac := .num 1, x := 180, y := -6,
        rotTransform := none })
    ∧ drawYBoth cBoth = .ok (some
      { text := "Speed", opac := .num 1, x := 74, y := 180,
        rotTransform := some (-270, 74, 180) }) := by
  have h := side_both_duplicate_titles cBoth rfl rfl rfl rfl
  constructor
  · rw [h.1]
    simp [cBoth, cAxis, xBothX, xBothY, xStandoffNoProp, titleStandoffBase,
      TriFlag.truthy] <;> norm_num
  · rw [h.2]
    simp [cBoth, cAxis, yBothX, yBothY, yStandoffNoProp, titleStandoffBase,
      TriFlag.truthy] <;> norm_num

/-- C5: with aftertext the glyph layer moves to
legend._width - legend.itemwidth - 2 * itemGap, reduced by
boxsizing.size / 2 exactly when box sizing is valid; without aftertext it
moves by boxsizing.size / 2 only when box sizing is valid and otherwise
keeps the vertical-alignment transform; box sizing is valid exactly when
boxsizing.size parses to a number >= 0 and legend._width <
fullLayout.width. -/
theorem legend_symbol_placement_transform (itemGap fullWidth : ℚ)
    (legend : LegendState) (cfg : InpixonLegendCfg) (valignT : Option (ℚ × ℚ)) :
    (cfg.aftertext = true →
      layersTransform itemGap legend cfg fullWidth valignT
        = some (legend.lwidth - legend.itemwidth - 2 * itemGap -
            (if isBoxSizingValid cfg legend.lwidth fullWidth then
              boxSizeQ cfg * (1 / 2)
             else 0), 0))
    ∧ (cfg.aftertext = false →
        isBoxSizingValid cfg legend.lwidth fullWidth = true →
        layersTransform itemGap legend cfg fullWidth valignT
          = some (boxSizeQ cfg * (1 / 2), 0))
    ∧ (cfg.aftertext = false →
        isBoxSizingValid cfg legend.lwidth fullWidth = false →
        layersTransform itemGap legend cfg fullWidth valignT = valignT)
    ∧ (isBoxSizingValid cfg legend.lwidth fullWidth = true ↔
        ((∃ n, cfg.boxsizingSize = some n ∧ 0 ≤ n) ∧
          legend.lwidth < fullWidth)) := by
  refine ⟨?_, ?_, ?_, ?_⟩
  · intro h
    by_cases hv : isBoxSizingValid cfg legend.lwidth fullWidth
    · simp [layersTransform, h, hv]
    · simp [layersTransform, h, hv]
  · intro h hv
    simp [layersTransform, h, hv]
  · intro h hv
    simp [layersTransform, h, hv]
  · cases hbs : cfg.boxsizingSize with
    | none => simp [isBoxSizingValid, hbs]
    | some n =>
      simp only [isBoxSizingValid, hbs, Bool.and_eq_true, decide_eq_true_eq,
        Option.some.injEq]
      constructor
      · rintro ⟨h1, h2⟩
        exact ⟨⟨n, rfl, h1⟩, h2⟩
      · rintro ⟨⟨m, hm, hm0⟩, h2⟩
        cases hm
        exact ⟨hm0, h2⟩

/-- Concrete legend state for the witnesses. -/
def cLegend : LegendState :=
  { itemwidth := 30, lwidth := 100, valign := "middle", hidetoggle := false }

theorem legend_symbol_placement_transform_witness :
    layersTransform 5 cLegend
        { aftertext := true, boxsizingSize := some 10, symbolstyle := none }
        500 none
      = some (55, 0) := by
  have h := (legend_symbol_placement_transform 5 500 cLegend
    { aftertext := true, boxsizingSize := some 10, symbolstyle := none } none).1 rfl
  rw [h]
  norm_num [isBoxSizingValid, boxSizeQ, cLegend]

/-- C6: the legend3dandfriends path data of styleSpatial is selected
solely by trace.type, parameterized by the Inpixon itemheight:
histogram2d/heatmap and choropleth/choroplethmapbox one linear-gradient
rectangle, densitymapbox one radial-gradient circle,
cone/streamtube/mesh3d/isosurface three solid-color paths, surface two
gradient paths, volume three gradient paths; any other type, and any
invisible trace, gets no path. -/
theorem spatial_glyph_selection (ih : ℚ) (t : String)
    (hother : t ∉ spatialTypes) :
    ((styleSpatialPts true "histogram2d" ih).1.length = 1 ∧
      (styleSpatialPts true "histogram2d" ih).2 = GradientMode.linear)
    ∧ styleSpatialPts true "heatmap" ih = styleSpatialPts true "histogram2d" ih
    ∧ ((styleSpatialPts true "choropleth" ih).1.length = 1 ∧
        (styleSpatialPts true "choropleth" ih).2 = GradientMode.linear)
    ∧ styleSpatialPts true "choroplethmapbox" ih = styleSpatialPts true "choropleth" ih
    ∧ ((styleSpatialPts true "densitymapbox" ih).1.length = 1 ∧
        (styleSpatialPts true "densitymapbox" ih).2 = GradientMode.radial)
    ∧ ((styleSpatialPts true "cone" ih).1.length = 3 ∧
        (styleSpatialPts true "cone" ih).2 = GradientMode.solid)
    ∧ ((styleSpatialPts true "streamtube" ih).1.length = 3 ∧
        (styleSpatialPts true "streamtube" ih).2 = GradientMode.solid)
    ∧ ((styleSpatialPts true "surface" ih).1.length = 2 ∧
        (styleSpatialPts true "surface" ih).2 = GradientMode.linear)
    ∧ ((styleSpatialPts true "mesh3d" ih).1.length = 3 ∧
        (styleSpatialPts true "mesh3d" ih).2 = GradientMode.solid)
    ∧ ((styleSpatialPts true "volume" ih).1.length = 3 ∧
        (styleSpatialPts true "volume" ih).2 = GradientMode.linear)
    ∧ ((styleSpatialPts true "isosurface" ih).1.length = 3 ∧
        (styleSpatialPts true "isosurface" ih).2 = GradientMode.solid)
    ∧ styleSpatialPts true t ih = ([], GradientMode.undef)
    ∧ (∀ s, styleSpatialPts false s ih = ([], GradientMode.undef)) := by
  have h := hother
  simp only [spatialTypes, List.mem_cons, List.not_mem_nil, or_false,
    not_or] at h
  obtain ⟨h1, h2, h3, h4, h5, h6, h7, h8, h9, h10, h11⟩ := h
  refine ⟨?_, ?_, ?_, ?_, ?_, ?_, ?_, ?_, ?_, ?_, ?_, ?_, ?_⟩
  · exact ⟨rfl, rfl⟩
  · simp [styleSpatialPts]
  · exact ⟨rfl, rfl⟩
  · simp [styleSpatialPts]
  · exact ⟨rfl, rfl⟩
  · exact ⟨rfl, rfl⟩
  · exact ⟨rfl, rfl⟩
  · exact ⟨rfl, rfl⟩
  · exact ⟨rfl, rfl⟩
  · exact ⟨rfl, rfl⟩
  · exact ⟨rfl, rfl⟩
  · simp [styleSpatialPts, h1, h2, h3, h4, h5, h6, h7, h8, h9, h10, h11]
  · intro s
    simp [styleSpatialPts]

theorem spatial_glyph_selection_witness :
    styleSpatialPts true "scatter" 30 = ([], GradientMode.undef)
    ∧ (styleSpatialPts true "cone" 30).1.length = 3 := by
  have h := spatial_glyph_selection 30 "scatter" (by decide)
  obtain ⟨-, -, -, -, -, hcone, -, -, -, -, -, ht, -⟩ := h
  exact ⟨ht, hcone.1⟩

/-- C7: the drawTitle transform attribute is null when options.transform
is absent, and otherwise concatenates the rotate fragment
rotate(rotate,x,y) when rotate is set with translate(0, offset) when
offset is set; the style always carries the font family, the
two-decimal-rounded size in px, the rgb fill and the opacity scaled by
the font color opacity. -/
theorem draw_title_transform_and_style (tr : Option TransformOpts) (ax ay : ℚ)
    (font : FontSpec) (opacity : ℚ) :
    (tr = none → drawTitleTransformAttr tr ax ay = none)
    ∧ (∀ r off, tr = some { rotate := some r, offset := some off } →
        drawTitleTransformAttr tr ax ay
          = some (rotateFragment r ax ay ++ strTranslate 0 off))
    ∧ (∀ r, tr = some { rotate := some r, offset := none } →
        drawTitleTransformAttr tr ax ay = some (rotateFragment r ax ay))
    ∧ (∀ off, tr = some { rotate := none, offset := some off } →
        drawTitleTransformAttr tr ax ay = some (strTranslate 0 off))
    ∧ (tr = some { rotate := none, offset := none } →
        drawTitleTransformAttr tr ax ay = some "")
    ∧ (drawTitleStyle font opacity).fontFamily = font.family
    ∧ (drawTitleStyle font opacity).fontSize = toString (d3round2 font.size) ++ "px"
    ∧ (drawTitleStyle font opacity).fill = font.colorRgb
    ∧ (drawTitleStyle font opacity).opacity = opacity * font.colorOpacity := by
  refine ⟨?_, ?_, ?_, ?_, ?_, rfl, rfl, rfl, rfl⟩
  · rintro rfl; rfl
  · rintro r off rfl; rfl
  · rintro r rfl
    simp [drawTitleTransformAttr]
  · rintro off rfl
    simp [drawTitleTransformAttr]
  · rintro rfl; rfl

theorem draw_title_transform_and_style_witness :
    drawTitleTransformAttr (some { rotate := some (-90), offset := none }) 120 40
      = some (rotateFragment (-90) 120 40)
    ∧ (drawTitleStyle
        { family := "Arial", size := 13, colorRgb := "rgb(68, 68, 68)",
          colorOpacity := 1 } 1).opacity = 1 * 1 := by
  have h := draw_title_transform_and_style
    (some { rotate := some (-90), offset := none }) 120 40
    { family := "Arial", size := 13, colorRgb := "rgb(68, 68, 68)",
      colorOpacity := 1 } 1
  exact ⟨h.2.2.1 (-90) rfl, h.2.2.2.2.2.2.2.2⟩

/-- C8: a draw call that enters an axis-side branch whose axis title owns
a standoff property hits the undefined approxTitleDepth and raises a
ReferenceError, so the branches complete without error exactly when no
entered branch takes the standoff path; the x branch runs first and its
error short-circuits the y branch. -/
theorem standoff_branch_reference_error (bi : BothInputs) :
    ((∃ r, drawBothBranches bi = .ok r) ↔
      (¬ (xBothEntered bi = true ∧ bi.xax.standoff.isSome = true) ∧
       ¬ (yBothEntered bi = true ∧ bi.yax.standoff.isSome = true)))
    ∧ (xBothEntered bi = true → bi.xax.standoff.isSome = true →
        drawBothBranches bi
          = .error "ReferenceError: approxTitleDepth is not defined")
    ∧ (yBothEntered bi = true → bi.yax.standoff.isSome = true →
        bi.xax.standoff.isSome = false ∨ xBothEntered bi = false →
        drawBothBranches bi
          = .error "ReferenceError: approxTitleDepth is not defined") := by
  by_cases hxe : xBothEntered bi = true <;>
    by_cases hye : yBothEntered bi = true <;>
      cases hsx : bi.xax.standoff <;>
        cases hsy : bi.yax.standoff <;>
          simp [drawBothBranches, drawXBoth, drawYBoth, hxe, hye, hsx, hsy,
            xTitleStandoffE, yTitleStandoffE]

/-- Concrete inputs whose x axis owns a standoff property. -/
def cBothStandoff : BothInputs :=
  { cBoth with xax := { cAxis with standoff := some 5 } }

theorem standoff_branch_reference_error_witness :
    drawBothBranches cBothStandoff
      = .error "ReferenceError: approxTitleDepth is not defined" := by
  exact (standoff_branch_reference_error cBothStandoff).2.1 rfl rfl

theorem foldl_styleLines_none (cfg : InpixonLegendCfg)
    (h : cfg.symbolstyle = some "none") (items : List Unit) (lg : LegendState) :
    items.foldl (fun l _ => styleLinesLegend cfg l) lg
      = if items.isEmpty then lg else { lg with itemwidth := 0 } := by
  induction items generalizing lg with
  | nil => rfl
  | cons x xs ih =>
    rw [List.foldl_cons, ih]
    have hs : styleLinesLegend cfg lg = { lg with itemwidth := 0 } := by
      simp [styleLinesLegend, h]
    rw [hs]
    by_cases he : xs.isEmpty <;> simp [he]

/-- C9: when symbolstyle.style === "none", a style call over at least one
legend item leaves legend.itemwidth = 0, mutating the caller-owned legend
object (its other fields unchanged) so the next style call computes its
centerTransform from 0, while the current call's centerTransform was
computed from the pre-mutation itemwidth; styleLines never writes any
legend field other than itemwidth. -/
theorem symbolstyle_none_itemwidth_mutation (itemGap : ℚ)
    (cfg : InpixonLegendCfg) (items items2 : List Unit) (legend : LegendState)
    (h : cfg.symbolstyle = some "none") (hne : ¬ items = []) :
    (styleCall itemGap cfg items legend).2.itemwidth = 0
    ∧ (styleCall itemGap cfg items legend).2.lwidth = legend.lwidth
    ∧ (styleCall itemGap cfg items legend).2.valign = legend.valign
    ∧ (styleCall itemGap cfg items legend).2.hidetoggle = legend.hidetoggle
    ∧ (styleCall itemGap cfg items legend).1
        = (legend.itemwidth + itemGap * 2) / 2
    ∧ (styleCall itemGap cfg items2 (styleCall itemGap cfg items legend).2).1
        = (0 + itemGap * 2) / 2
    ∧ (∀ (cfg2 : InpixonLegendCfg) (lg : LegendState),
        (styleLinesLegend cfg2 lg).lwidth = lg.lwidth
        ∧ (styleLinesLegend cfg2 lg).valign = lg.valign
        ∧ (styleLinesLegend cfg2 lg).hidetoggle = lg.hidetoggle) := by
  have hie : items.isEmpty = false := by
    cases items with
    | nil => exact absurd rfl hne
    | cons a as => rfl
  have hfold : (styleCall itemGap cfg items legend).2
      = { legend with itemwidth := 0 } := by
    simp only [styleCall]
    rw [foldl_styleLines_none cfg h items legend, hie]
    simp
  refine ⟨?_, ?_, ?_, ?_, rfl, ?_, ?_⟩
  · rw [hfold]
  · rw [hfold]
  · rw [hfold]
  · rw [hfold]
  · rw [hfold]
    simp [styleCall, centerPos]
  · intro cfg2 lg
    unfold styleLinesLegend
    by_cases h1 : cfg2.symbolstyle = some "markers" ∨ cfg2.symbolstyle = some "none"
    · by_cases h2 : cfg2.symbolstyle = some "none"
      · simp [h1, h2]
      · simp [h1, h2]
    · simp [h1]

/-- Concrete Inpixon legend configuration with symbolstyle "none". -/
def cCfgNone : InpixonLegendCfg :=
  { aftertext := false, boxsizingSize := none, symbolstyle := some "none" }

theorem symbolstyle_none_itemwidth_mutation_witness :
    (styleCall 5 cCfgNone [()] cLegend).2.itemwidth = 0
    ∧ (styleCall 5 cCfgNone [()] cLegend).1
        = (cLegend.itemwidth + 5 * 2) / 2 := by
  have h := symbolstyle_none_itemwidth_mutation 5 cCfgNone
    [()] [()] cLegend rfl (by simp)
  exact ⟨h.1, h.2.2.2.2.1⟩

/-- C10: under hidetoggle every show flag of getStyleGuide is false — so
the legend fill, line and marker selections bind no data — while anyLine
and anyFill keep their pre-toggle values (line or gradient-line, fill or
gradient-fill), so the pathStart baseline is the same as without the
toggle. -/
theorem hidetoggle_style_guide (t : TraceRec) :
    (getStyleGuide t true).showMarker = false
    ∧ (getStyleGuide t true).showLine = false
    ∧ (getStyleGuide t true).showFill = false
    ∧ (getStyleGuide t true).showGradientLine = false
    ∧ (getStyleGuide t true).showGradientFill = false
    ∧ (getStyleGuide t true).anyLine = (getStyleGuide t false).anyLine
    ∧ (getStyleGuide t true).anyFill = (getStyleGuide t false).anyFill
    ∧ (getStyleGuide t false).anyLine
        = ((getStyleGuide t false).showLine || (getStyleGuide t false).showGradientLine)
    ∧ (getStyleGuide t false).anyFill
        = ((getStyleGuide t false).showFill || (getStyleGuide t false).showGradientFill)
    ∧ legendFillData (getStyleGuide t true) = []
    ∧ legendLineData (getStyleGuide t true) = []
    ∧ (∀ cfg, legendMarkerData (getStyleGuide t true) cfg = [])
    ∧ pathStart t.hasMarkers (getStyleGuide t true).anyFill
        (getStyleGuide t true).anyLine
      = pathStart t.hasMarkers (getStyleGuide t false).anyFill
          (getStyleGuide t false).anyLine := by
  have hm : (getStyleGuide t true).showMarker = false := rfl
  have hf : (getStyleGuide t true).showFill = false := rfl
  have hgf : (getStyleGuide t true).showGradientFill = false := rfl
  have hl : (getStyleGuide t true).showLine = false := rfl
  have hgl : (getStyleGuide t true).showGradientLine = false := rfl
  refine ⟨rfl, rfl, rfl, rfl, rfl, rfl, rfl, rfl, rfl, ?_, ?_, ?_, rfl⟩
  · simp [legendFillData, hf, hgf]
  · simp [legendLineData, hl, hgl]
  · intro cfg
    simp [legendMarkerData, hm]

end PlotlyInpixon
